import Mathlib

/-!
# Verification of the breadwallet-core event-dispatch core and Ripple account

A shallow embedding of `src/ethereum/event/BREvent.c` (event handler) and
`src/ripple/BRRippleAccount.c` (Ripple account), with the event queue and
alarm clock — whose sources `BREventQueue.c` / `BREventAlarm.c` are not part
of this corpus — modelled from the specification of their call contracts.

Concurrency is sequentialized in the standard way: the worker thread's
actions (recording/clearing its identity, draining the queue) are explicit
state-transition functions, and `eventHandlerStop`'s condition-variable wait
for the worker's exit is modelled as the worker's exit transition taking
effect before `stop` proceeds.  Opaque C pointers (dispatcher function
pointers, context pointers) are modelled as opaque numeric identifiers.
-/

/-- Model of `struct timespec`: seconds plus nanoseconds. -/
structure BRTimespec where
  tv_sec : Nat
  tv_nsec : Nat
deriving DecidableEq, Repr

/-- A dispatcher function pointer, modelled as an opaque identifier
(`NULL` is `Option.none` at use sites). -/
abbrev BREventDispatcher := Nat

/-- A `BREventTimeoutContext` (an opaque `void*` context value), modelled as
an opaque identifier. -/
abbrev BREventTimeoutContext := Nat

/-- Model of `BREventType`: name, payload size in bytes, dispatcher callback
(`none` models a NULL function pointer). -/
structure BREventType where
  eventName : String
  eventSize : Nat
  eventDispatcher : Option BREventDispatcher
deriving DecidableEq, Repr

/-- A queued event.  In C a `BREvent` is a record headed by a queue-link
pointer and a pointer to its `BREventType`; the payload bytes follow.  The
type pointer either points into the handler's registered `types` array
(modelled by an index) or at the handler's own synthesized timeout type; a
timeout event's payload is a `BREventTimeout` (context plus expiration). -/
inductive BREvent where
  /-- an event of the collaborator-registered type `types[typeIndex]`,
  with its payload fields abstracted as integers -/
  | user (typeIndex : Nat) (payload : List Int)
  /-- the handler-synthesized timeout event (`BREventTimeout`) -/
  | timeout (context : BREventTimeoutContext) (expiration : BRTimespec)
deriving DecidableEq, Repr

/-- Modelled from the spec: `BREventQueue.c` is not in the corpus.  The queue
holds fixed-size event records in two FIFO lanes — head-inserted (OOB) events
form a second FIFO lane drained before any tail-inserted event — plus an
abort flag for waking a blocked consumer without a real event. -/
structure BREventQueue where
  headLane : List BREvent
  tailLane : List BREvent
  abortFlag : Bool
deriving DecidableEq, Repr

/-- Modelled from the spec: a freshly created queue is empty with the abort
flag clear (`eventQueueCreate`). -/
def eventQueueCreate : BREventQueue :=
  { headLane := [], tailLane := [], abortFlag := false }

/-- Modelled from the spec: `eventQueueEnqueueTailSignal` copies the event
and appends it to the FIFO end. -/
def eventQueueEnqueueTailSignal (q : BREventQueue) (e : BREvent) : BREventQueue :=
  { q with tailLane := q.tailLane ++ [e] }

/-- Modelled from the spec: `eventQueueEnqueueHeadSignal` inserts at the
front lane, ahead of all previously queued tail events but behind previously
queued head events in head-insertion order (a second FIFO lane drained
first). -/
def eventQueueEnqueueHeadSignal (q : BREventQueue) (e : BREvent) : BREventQueue :=
  { q with headLane := q.headLane ++ [e] }

/-- Modelled from the spec: `eventQueueDequeueWaitAbort` sets a persistent
abort flag (and wakes the blocked consumer). -/
def eventQueueDequeueWaitAbort (q : BREventQueue) : BREventQueue :=
  { q with abortFlag := true }

/-- Modelled from the spec: `eventQueueDequeueWaitAbortReset` clears the
abort flag. -/
def eventQueueDequeueWaitAbortReset (q : BREventQueue) : BREventQueue :=
  { q with abortFlag := false }

/-- Modelled from the spec: `eventQueueClear` discards all queued events in
both lanes. -/
def eventQueueClear (q : BREventQueue) : BREventQueue :=
  { q with headLane := [], tailLane := [] }

/-- The status values of `BREventStatus` as used by the dequeue/dispatch
protocol. -/
inductive BREventStatus where
  | success
  | notStarted
  | unknownType
  | nullEvent
  | nonePending
  | waitAbort
  | waitError
deriving DecidableEq, Repr

/-- Modelled from the spec: the observable outcome of one
`eventQueueDequeueWait` call in the sequentialized model.  If the abort flag
is set the wait returns `WAIT_ABORT`; otherwise the earliest available event
(head lane first) is removed and returned with `SUCCESS`; an empty queue
blocks (no outcome in the sequential model, `none`). -/
def eventQueueDequeueWait (q : BREventQueue) :
    Option (BREventStatus × Option BREvent × BREventQueue) :=
  if q.abortFlag then some (.waitAbort, none, q)
  else
    match q.headLane with
    | e :: rest => some (.success, some e, { q with headLane := rest })
    | [] =>
      match q.tailLane with
      | e :: rest => some (.success, some e, { q with tailLane := rest })
      | [] => none

/-- Modelled from the spec: an armed alarm of the process-wide alarm clock:
unique id, context/callback (the handler that armed it, by name), and
period. -/
structure BREventAlarm where
  id : Nat
  handlerName : String
  period : BRTimespec
deriving DecidableEq, Repr

/-- Modelled from the spec: the process-wide alarm-clock singleton state —
whether its background thread has been started, the next fresh alarm id, and
the set of armed alarms. -/
structure BREventAlarmClock where
  running : Bool
  nextId : Nat
  alarms : List BREventAlarm
deriving DecidableEq, Repr

/-- Modelled from the spec: `alarmClockCreateIfNecessary` idempotently
ensures the shared scheduler is running. -/
def alarmClockCreateIfNecessary (clk : BREventAlarmClock) : BREventAlarmClock :=
  { clk with running := true }

/-- Modelled from the spec: `alarmClockAddAlarmPeriodic` arms a new periodic
alarm and returns its unique id. -/
def alarmClockAddAlarmPeriodic (clk : BREventAlarmClock) (handlerName : String)
    (period : BRTimespec) : Nat × BREventAlarmClock :=
  (clk.nextId,
   { clk with
      nextId := clk.nextId + 1,
      alarms := clk.alarms ++ [{ id := clk.nextId, handlerName := handlerName,
                                 period := period }] })

/-- Modelled from the spec: `alarmClockRemAlarm` disarms and forgets the
alarm with the given id; removing a non-existent id is a no-op. -/
def alarmClockRemAlarm (clk : BREventAlarmClock) (i : Nat) : BREventAlarmClock :=
  { clk with alarms := clk.alarms.filter (fun a => a.id ≠ i) }

/-- Model of `struct BREventHandlerRecord` (BREvent.c lines 31–76): name, registered
types, unified event slot size, queue, synthesized timeout event type with
its context / period / armed-alarm id, and the worker-thread handle
(`PTHREAD_NULL` = `none`).  The scratch buffer, locks, and condition
variable have no sequential-state content and are represented by the model's
explicit transitions. -/
structure BREventHandler where
  name : String
  types : List BREventType
  eventSize : Nat
  queue : BREventQueue
  timeoutEventType : BREventType
  timeoutContext : BREventTimeoutContext
  timeout : BRTimespec
  timeoutAlarmId : Option Nat
  thread : Option Unit
deriving DecidableEq, Repr

/-- Model of `eventHandlerCreate` (BREvent.c lines 78–131).  `sizeofBREventTimeout`
is the platform-dependent `sizeof(BREventTimeout)`, passed as a parameter.
The timeout event type is synthesized with name "Timeout Event" and a NULL
dispatcher; `eventSize` starts at the timeout event's size and is raised to
the largest registered type's size. -/
def eventHandlerCreate (sizeofBREventTimeout : Nat) (name : String)
    (types : List BREventType) : BREventHandler :=
  let timeoutType : BREventType :=
    { eventName := "Timeout Event",
      eventSize := sizeofBREventTimeout,
      eventDispatcher := none }
  { name := name,
    types := types,
    eventSize := types.foldl (fun acc t => max acc t.eventSize) timeoutType.eventSize,
    queue := eventQueueCreate,
    timeoutEventType := timeoutType,
    timeoutContext := 0,
    timeout := { tv_sec := 0, tv_nsec := 0 },
    timeoutAlarmId := none,
    thread := none }

/-- Model of `eventHandlerSetTimeoutDispatcher` (BREvent.c lines 133–144): under the
internal lock, converts the millisecond period to `timespec` seconds plus
nanoseconds and records the context and dispatcher on the built-in timeout
type. -/
def eventHandlerSetTimeoutDispatcher (h : BREventHandler)
    (timeInMilliseconds : Nat) (dispatcher : BREventDispatcher)
    (context : BREventTimeoutContext) : BREventHandler :=
  { h with
     timeout := { tv_sec := timeInMilliseconds / 1000,
                  tv_nsec := 1000000 * (timeInMilliseconds % 1000) },
     timeoutContext := context,
     timeoutEventType := { h.timeoutEventType with eventDispatcher := some dispatcher } }

/-- Model of `eventHandlerSignalEvent` (BREvent.c lines 337–342): tail-enqueue;
always returns `EVENT_STATUS_SUCCESS`. -/
def eventHandlerSignalEvent (h : BREventHandler) (e : BREvent) :
    BREventStatus × BREventHandler :=
  (.success, { h with queue := eventQueueEnqueueTailSignal h.queue e })

/-- Model of `eventHandlerSignalEventOOB` (BREvent.c lines 344–349): head-enqueue;
always returns `EVENT_STATUS_SUCCESS`. -/
def eventHandlerSignalEventOOB (h : BREventHandler) (e : BREvent) :
    BREventStatus × BREventHandler :=
  (.success, { h with queue := eventQueueEnqueueHeadSignal h.queue e })

/-- Model of `eventHandlerClear` (BREvent.c lines 351–354). -/
def eventHandlerClear (h : BREventHandler) : BREventHandler :=
  { h with queue := eventQueueClear h.queue }

/-- Model of `eventHandlerIsRunning` (BREvent.c lines 329–335): whether a worker
thread is recorded. -/
def eventHandlerIsRunning (h : BREventHandler) : Bool :=
  h.thread.isSome

/-- Model of `eventHandlerAlarmCallback` (BREvent.c lines 146–153): synthesizes a
`BREventTimeout` event carrying the handler's timeout type and registered
context plus the expiration time, and pushes it out-of-band into the
handler's own queue. -/
def eventHandlerAlarmCallback (h : BREventHandler) (expiration : BRTimespec) :
    BREventHandler :=
  (eventHandlerSignalEventOOB h (.timeout h.timeoutContext expiration)).2

/-- Model of `eventHandlerStart` (BREvent.c lines 235–275): ensure the shared alarm
clock exists; under the internal lock, if no worker thread is recorded, arm
a periodic alarm when a timeout dispatcher is registered and spawn the
worker thread (which records its identity as the handler's thread). -/
def eventHandlerStart (h : BREventHandler) (clk : BREventAlarmClock) :
    BREventHandler × BREventAlarmClock :=
  let clk1 := alarmClockCreateIfNecessary clk
  if h.thread = none then
    if h.timeoutEventType.eventDispatcher ≠ none then
      ({ h with
          timeoutAlarmId := some (alarmClockAddAlarmPeriodic clk1 h.name h.timeout).1,
          thread := some () },
       (alarmClockAddAlarmPeriodic clk1 h.name h.timeout).2)
    else ({ h with thread := some () }, clk1)
  else (h, clk1)

/-- Step 1 of `eventHandlerStop` (BREvent.c lines 293–297): remove the
timeout alarm from the clock, if one exists, and reset the alarm id. -/
def stopRemoveAlarm (h : BREventHandler) (clk : BREventAlarmClock) :
    BREventHandler × BREventAlarmClock :=
  match h.timeoutAlarmId with
  | some alarmId => ({ h with timeoutAlarmId := none }, alarmClockRemAlarm clk alarmId)
  | none => (h, clk)

/-- Step 2 of `eventHandlerStop` (BREvent.c line 300): abort the queue wait
to make the worker quit its loop. -/
def stopAbortQueue (h : BREventHandler) : BREventHandler :=
  { h with queue := eventQueueDequeueWaitAbort h.queue }

/-- Step 3 of `eventHandlerStop` (BREvent.c line 312), sequentialized: the
worker observes the abort, clears its recorded identity and signals
`threadExit` (BREvent.c lines 200–203); `stop`'s `pthread_cond_wait`
returns with the lock re-acquired. -/
def stopAwaitThreadExit (h : BREventHandler) : BREventHandler :=
  { h with thread := none }

/-- Steps 4 and 5 of `eventHandlerStop` (BREvent.c lines 315–316): reset the
queue's abort flag, then clear all remaining queued events. -/
def stopResetAndClear (h : BREventHandler) : BREventHandler :=
  eventHandlerClear
    { h with queue := eventQueueDequeueWaitAbortReset h.queue }

/-- Model of `eventHandlerStop` (BREvent.c lines 289–319): under the internal lock,
if a worker thread is recorded, perform the four steps in order; otherwise
do nothing. -/
def eventHandlerStop (h : BREventHandler) (clk : BREventAlarmClock) :
    BREventHandler × BREventAlarmClock :=
  if h.thread ≠ none then
    (stopResetAndClear (stopAwaitThreadExit (stopAbortQueue (stopRemoveAlarm h clk).1)),
     (stopRemoveAlarm h clk).2)
  else (h, clk)

/-- Model of `eventHandlerDestroy` (BREvent.c lines 208–223): first stop, then
`assert (PTHREAD_NULL == handler->thread)` — `none` models a passed
assertion (a fatal assertion failure), `some` carries the surviving alarm
clock after the handler's queue, scratch buffer and record are released. -/
def eventHandlerDestroy (h : BREventHandler) (clk : BREventAlarmClock) :
    Option BREventAlarmClock :=
  let s := eventHandlerStop h clk
  if s.1.thread = none then some s.2 else none

/-- The worker loop's reaction to one dequeue status
(`eventHandlerThread`, BREvent.c lines 173–198). -/
inductive WorkerLoopAction where
  /-- dispatch the dequeued event (under the dispatch lock, if provided)
  and continue the loop -/
  | dispatchAndContinue
  /-- retry the wait with no other effect ("Just try again.") -/
  | retryWait
  /-- set `timeToQuit` and exit the loop -/
  | exitLoop
  /-- Model of `assert(0)`: fatal internal-invariant failure -/
  | fatalAssertion
deriving DecidableEq, Repr

/-- The `switch` statement of `eventHandlerThread` (BREvent.c lines
175–197), mapping each dequeue status to the loop's reaction. -/
def eventHandlerThreadStep : BREventStatus → WorkerLoopAction
  | .success => .dispatchAndContinue
  | .waitAbort => .exitLoop
  | .waitError => .retryWait
  | .notStarted => .fatalAssertion
  | .unknownType => .fatalAssertion
  | .nullEvent => .fatalAssertion
  | .nonePending => .fatalAssertion

/-- One signal operation submitted to a handler: the tail path
(`eventHandlerSignalEvent`) or the OOB head path
(`eventHandlerSignalEventOOB`). -/
inductive SignalOp where
  | tail (e : BREvent)
  | oob (e : BREvent)
deriving DecidableEq, Repr

/-- Apply a sequence of signal operations to a handler, in order. -/
def applySignals (h : BREventHandler) : List SignalOp → BREventHandler
  | [] => h
  | .tail e :: rest => applySignals (eventHandlerSignalEvent h e).2 rest
  | .oob e :: rest => applySignals (eventHandlerSignalEventOOB h e).2 rest

/-- The events a sequence of signal operations sent on the OOB path, in
signal order. -/
def oobEvents : List SignalOp → List BREvent
  | [] => []
  | .tail _ :: rest => oobEvents rest
  | .oob e :: rest => e :: oobEvents rest

/-- The events a sequence of signal operations sent on the tail path, in
signal order. -/
def tailEvents : List SignalOp → List BREvent
  | [] => []
  | .tail e :: rest => e :: tailEvents rest
  | .oob _ :: rest => tailEvents rest

/-- Fuel-bounded iteration of the worker's dequeue-dispatch cycle: each
`eventQueueDequeueWait` that returns `SUCCESS` yields the dequeued event and
the loop continues on the remaining queue. -/
def queueDrainFuel : Nat → BREventQueue → List BREvent
  | 0, _ => []
  | fuel + 1, q =>
    match eventQueueDequeueWait q with
    | some (.success, some e, q') => e :: queueDrainFuel fuel q'
    | _ => []

/-- The worker thread's dispatch order when draining the queue to empty: the
sequence of events successively returned by `eventQueueDequeueWait` (each
event in the queue is dequeued exactly once, so the queue's total length is
sufficient fuel). -/
def queueDispatchOrder (q : BREventQueue) : List BREvent :=
  queueDrainFuel (q.headLane.length + q.tailLane.length) q

/-!
## Ripple account (`src/ripple/BRRippleAccount.c`)
-/

/-- A 256-bit zero (`UINT256_ZERO`); 256-bit values are modelled as `Nat`. -/
def UINT256_ZERO : Nat := 0

/-- Model of `BRKey` (support code, not in the corpus): the fields this file reads or
writes — the 256-bit `secret`, the public-key bytes, and the compression
flag. -/
structure BRKey where
  secret : Nat
  pubKey : List Nat
  compressed : Bool
deriving DecidableEq, Repr

/-- An opaque reference to a `BRRippleTransaction`. -/
abbrev BRRippleTransaction := Nat

/-- An opaque non-NULL `BRRippleSerializedTransaction` reference (the C
pointer's NULL is `Option.none` at use sites). -/
abbrev BRRippleSerializedTransaction := Nat

/-- Model of `struct BRRippleAccountRecord` (BRRippleAccount.c lines 29–45): 20-byte
account id, public key, BIP-44 index, next sequence number, and optional
last-ledger-sequence bound. -/
structure BRRippleAccount where
  raw : List Nat
  publicKey : BRKey
  index : Nat
  sequence : Nat
  lastLedgerSequence : Nat
deriving DecidableEq, Repr

/-- Model of `rippleAccountGetPublicKey` (BRRippleAccount.c lines 248–254): zeroes
the secret stored in the account's key, then returns that key.  The account
is mutated in place, so the result is the returned key together with the
updated account. -/
def rippleAccountGetPublicKey (account : BRRippleAccount) :
    BRKey × BRRippleAccount :=
  let account := { account with
                    publicKey := { account.publicKey with secret := UINT256_ZERO } }
  (account.publicKey, account)

/-- Model of `rippleAccountSignTransaction` (BRRippleAccount.c lines 273–293).
`getKey` (key derivation from the paper key, support code) and
`rippleTransactionSerializeAndSign` (declared `extern` at lines 269–271,
defined outside this file) are opaque collaborators, passed as function
parameters; a NULL `signedBytes` result is `none`.  The sequence number is
incremented only when `signedBytes` is non-NULL. -/
def rippleAccountSignTransaction (account : BRRippleAccount)
    (transaction : BRRippleTransaction) (paperKey : String)
    (getKey : String → BRKey)
    (rippleTransactionSerializeAndSign :
      BRRippleTransaction → BRKey → BRKey → Nat → Nat →
        Option BRRippleSerializedTransaction) :
    Option BRRippleSerializedTransaction × BRRippleAccount :=
  let key := getKey paperKey
  let signedBytes :=
    rippleTransactionSerializeAndSign transaction key account.publicKey
      account.sequence account.lastLedgerSequence
  if signedBytes.isSome then
    (signedBytes, { account with sequence := account.sequence + 1 })
  else
    (signedBytes, account)

/-!
## Sample states

Concrete states used to instantiate theorems with hypotheses.
-/

/-- A sample collaborator-registered event type. -/
def sampleUserType : BREventType :=
  { eventName := "T", eventSize := 8, eventDispatcher := some 1 }

/-- A freshly created (idle, no worker thread) handler with one registered
type; `sizeof(BREventTimeout)` taken as 16. -/
def sampleIdleHandler : BREventHandler :=
  eventHandlerCreate 16 "sample" [sampleUserType]

/-- The sample idle handler after registering a timeout dispatcher with a
2500 ms period. -/
def sampleArmedHandler : BREventHandler :=
  eventHandlerSetTimeoutDispatcher sampleIdleHandler 2500 7 42

/-- A running handler: worker thread recorded, timeout alarm 0 armed, one
queued tail event. -/
def sampleRunningHandler : BREventHandler :=
  { sampleArmedHandler with
     thread := some (),
     timeoutAlarmId := some 0,
     queue := { headLane := [], tailLane := [.user 0 [5]], abortFlag := false } }

/-- A sample alarm-clock state holding the alarm armed by
`sampleRunningHandler`. -/
def sampleClock : BREventAlarmClock :=
  { running := true, nextId := 1,
    alarms := [{ id := 0, handlerName := "sample",
                 period := { tv_sec := 2, tv_nsec := 500000000 } }] }

/-!
## Helper lemmas
-/

/-- Folding `max` from the left starting at `a` equals `max a` of the
right-fold maximum. -/
lemma foldl_max_eq (l : List Nat) (a : Nat) :
    l.foldl max a = max a (l.foldr max 0) := by
  induction l generalizing a with
  | nil => simp
  | cons x xs ih => simp [List.foldl_cons, List.foldr_cons, ih (max a x), max_assoc]

/-- Draining an un-aborted queue with sufficient fuel dequeues the head lane
first, then the tail lane, each in FIFO order. -/
lemma queueDrainFuel_eq_append (fuel : Nat) (hd tl : List BREvent)
    (hfuel : hd.length + tl.length ≤ fuel) :
    queueDrainFuel fuel { headLane := hd, tailLane := tl, abortFlag := false }
      = hd ++ tl := by
  induction fuel generalizing hd tl with
  | zero =>
    have h1 : hd = [] := List.eq_nil_of_length_eq_zero (by omega)
    have h2 : tl = [] := List.eq_nil_of_length_eq_zero (by omega)
    subst h1; subst h2; rfl
  | succ n ih =>
    rcases hd with _ | ⟨a, hd'⟩
    · rcases tl with _ | ⟨b, tl'⟩
      · rfl
      · have hrec := ih [] tl' (by simp at hfuel ⊢; omega)
        simp only [queueDrainFuel, eventQueueDequeueWait] at hrec ⊢
        simpa using hrec
    · have hrec := ih hd' tl (by simp at hfuel ⊢; omega)
      simp only [queueDrainFuel, eventQueueDequeueWait] at hrec ⊢
      simpa using hrec

/-- The worker dispatch order of an un-aborted queue is its head lane
followed by its tail lane. -/
lemma queueDispatchOrder_eq_append (q : BREventQueue) (hq : q.abortFlag = false) :
    queueDispatchOrder q = q.headLane ++ q.tailLane := by
  rcases q with ⟨hd, tl, fl⟩
  simp only at hq
  subst hq
  exact queueDrainFuel_eq_append _ hd tl (le_refl _)

/-- Applying a sequence of signal operations appends the OOB-signaled events
to the head lane and the tail-signaled events to the tail lane, each in
signal order, and leaves the abort flag unchanged. -/
lemma applySignals_queue (sigs : List SignalOp) (h : BREventHandler) :
    (applySignals h sigs).queue.headLane = h.queue.headLane ++ oobEvents sigs ∧
    (applySignals h sigs).queue.tailLane = h.queue.tailLane ++ tailEvents sigs ∧
    (applySignals h sigs).queue.abortFlag = h.queue.abortFlag := by
  induction sigs generalizing h with
  | nil => simp [applySignals, oobEvents, tailEvents]
  | cons s rest ih =>
    cases s with
    | tail e =>
      have hrec := ih (eventHandlerSignalEvent h e).2
      simp [applySignals, oobEvents, tailEvents, eventHandlerSignalEvent,
        eventQueueEnqueueTailSignal] at hrec ⊢
      exact hrec
    | oob e =>
      have hrec := ih (eventHandlerSignalEventOOB h e).2
      simp [applySignals, oobEvents, tailEvents, eventHandlerSignalEventOOB,
        eventQueueEnqueueHeadSignal] at hrec ⊢
      exact hrec

/-!
## Claim theorems
-/

/-- C1: For every handler, among tail-only signals to an idle handler the
dispatch order equals signal order (FIFO); an OOB (head-path) event is
dispatched before every tail-signaled event signaled earlier but not yet
dispatched; several pending OOB events dispatch in their own signal order —
the drained dispatch order is exactly the OOB-signaled events in signal
order followed by the tail-signaled events in signal order.  In particular,
after `signalEvent(T{5}); signalEvent(T{6}); signalEventOOB(T{7})` the
dispatch order is `7, 5, 6`. -/
theorem eventHandler_dispatchOrder_fifo_oob (h : BREventHandler)
    (sigs : List SignalOp) (hidle : h.queue = eventQueueCreate) :
    queueDispatchOrder (applySignals h sigs).queue
        = oobEvents sigs ++ tailEvents sigs ∧
    queueDispatchOrder (applySignals h
        [SignalOp.tail (.user 0 [5]), SignalOp.tail (.user 0 [6]),
         SignalOp.oob (.user 0 [7])]).queue
      = [BREvent.user 0 [7], BREvent.user 0 [5], BREvent.user 0 [6]] := by
  have main : ∀ sg : List SignalOp,
      queueDispatchOrder (applySignals h sg).queue
        = oobEvents sg ++ tailEvents sg := by
    intro sg
    obtain ⟨h1, h2, h3⟩ := applySignals_queue sg h
    rw [queueDispatchOrder_eq_append _ (by rw [h3, hidle]; rfl), h1, h2, hidle]
    simp [eventQueueCreate]
  exact ⟨main sigs, by rw [main]; rfl⟩

/-- Witness for C1 at a concrete idle handler and the concrete scenario. -/
theorem eventHandler_dispatchOrder_fifo_oob_witness :
    sampleIdleHandler.queue = eventQueueCreate ∧
    queueDispatchOrder (applySignals sampleIdleHandler
        [SignalOp.tail (.user 0 [5]), SignalOp.tail (.user 0 [6]),
         SignalOp.oob (.user 0 [7])]).queue
      = [BREvent.user 0 [7], BREvent.user 0 [5], BREvent.user 0 [6]] :=
  ⟨rfl, (eventHandler_dispatchOrder_fifo_oob sampleIdleHandler [] rfl).2⟩

/-- C2: on a running handler, `eventHandlerStop` removes the armed timeout
alarm (if any) from the clock and resets the alarm id to none, aborts the
queue wait, waits for the worker to exit, then resets the abort flag and
clears the queue; afterwards `isRunning()` is false and the queue holds no
events. -/
theorem eventHandlerStop_drains_and_halts (h : BREventHandler)
    (clk : BREventAlarmClock) (hrun : h.thread ≠ none) :
    eventHandlerIsRunning (eventHandlerStop h clk).1 = false ∧
    (eventHandlerStop h clk).1.thread = none ∧
    (eventHandlerStop h clk).1.queue.headLane = [] ∧
    (eventHandlerStop h clk).1.queue.tailLane = [] ∧
    (eventHandlerStop h clk).1.queue.abortFlag = false ∧
    (eventHandlerStop h clk).1.timeoutAlarmId = none ∧
    (h.timeoutAlarmId = none → (eventHandlerStop h clk).2 = clk) ∧
    (∀ a, h.timeoutAlarmId = some a →
      (eventHandlerStop h clk).2 = alarmClockRemAlarm clk a) := by
  cases halarm : h.timeoutAlarmId <;>
    simp [eventHandlerStop, hrun, stopRemoveAlarm, halarm, stopAbortQueue,
      stopAwaitThreadExit, stopResetAndClear, eventHandlerClear, eventQueueClear,
      eventQueueDequeueWaitAbort, eventQueueDequeueWaitAbortReset,
      eventHandlerIsRunning]

/-- Witness for C2 at a concrete running handler with an armed alarm and a
pending event. -/
theorem eventHandlerStop_drains_and_halts_witness :
    sampleRunningHandler.thread ≠ none ∧
    eventHandlerIsRunning (eventHandlerStop sampleRunningHandler sampleClock).1
        = false ∧
    (eventHandlerStop sampleRunningHandler sampleClock).1.queue.tailLane = [] ∧
    (eventHandlerStop sampleRunningHandler sampleClock).1.timeoutAlarmId = none := by
  have hrun : sampleRunningHandler.thread ≠ none := by decide
  have hall := eventHandlerStop_drains_and_halts sampleRunningHandler sampleClock hrun
  exact ⟨hrun, hall.1, hall.2.2.2.1, hall.2.2.2.2.2.1⟩

/-- C3 counterexample: on a concrete RUNNING handler, `eventHandlerDestroy`
does not fail its assertion — it first calls `eventHandlerStop`, after which
no worker thread is recorded — contradicting the claim that destroying a
running handler is a fatal assertion failure. -/
theorem eventHandlerDestroy_running_counterexample :
    sampleRunningHandler.thread = some () ∧
    eventHandlerDestroy sampleRunningHandler sampleClock ≠ none := by
  refine ⟨rfl, ?_⟩
  decide

/-- C3 amended: `eventHandlerDestroy` stops the handler first; its assertion
that no worker thread is recorded therefore always holds when checked (for a
running handler the internal stop clears the thread; for a stopped handler
it was already clear), so destroy succeeds — releasing the queue, scratch
buffer and handler record — whether or not the handler was running, rather
than failing fatally on a running one. -/
theorem eventHandlerDestroy_stops_then_releases (h : BREventHandler)
    (clk : BREventAlarmClock) :
    (eventHandlerStop h clk).1.thread = none ∧
    eventHandlerDestroy h clk = some (eventHandlerStop h clk).2 := by
  have hnone : (eventHandlerStop h clk).1.thread = none := by
    by_cases hth : h.thread = none
    · simp [eventHandlerStop, hth]
    · cases halarm : h.timeoutAlarmId <;>
        simp [eventHandlerStop, hth, stopRemoveAlarm, halarm, stopAbortQueue,
          stopAwaitThreadExit, stopResetAndClear, eventHandlerClear,
          eventQueueClear, eventQueueDequeueWaitAbortReset]
  exact ⟨hnone, by simp [eventHandlerDestroy, hnone]⟩

/-- C4: `eventHandlerStart` on a handler whose worker thread is recorded
leaves every handler field unchanged, and `eventHandlerStop` on a handler
with no recorded worker thread leaves every handler field (and the alarm
clock) unchanged. -/
theorem eventHandler_start_stop_noop (h h2 : BREventHandler)
    (clk clk2 : BREventAlarmClock)
    (hrun : h.thread ≠ none) (hstopped : h2.thread = none) :
    (eventHandlerStart h clk).1 = h ∧
    eventHandlerStop h2 clk2 = (h2, clk2) := by
  constructor
  · simp [eventHandlerStart, hrun]
  · simp [eventHandlerStop, hstopped]

/-- Witness for C4 at a concrete running handler and a concrete stopped
handler. -/
theorem eventHandler_start_stop_noop_witness :
    sampleRunningHandler.thread ≠ none ∧
    sampleIdleHandler.thread = none ∧
    (eventHandlerStart sampleRunningHandler sampleClock).1
        = sampleRunningHandler ∧
    eventHandlerStop sampleIdleHandler sampleClock
        = (sampleIdleHandler, sampleClock) := by
  have h1 : sampleRunningHandler.thread ≠ none := by decide
  have h2 : sampleIdleHandler.thread = none := rfl
  obtain ⟨a, b⟩ := eventHandler_start_stop_noop sampleRunningHandler
    sampleIdleHandler sampleClock sampleClock h1 h2
  exact ⟨h1, h2, a, b⟩

/-- C5: the worker loop dispatches and continues on `SUCCESS`, retries the
wait with no other effect on `WAIT_ERROR`, exits the loop on `WAIT_ABORT`,
and hits a fatal assertion on every other status (`NOT_STARTED`,
`UNKNOWN_TYPE`, `NULL_EVENT`, `NONE_PENDING`). -/
theorem eventHandlerThread_status_reactions :
    eventHandlerThreadStep .success = .dispatchAndContinue ∧
    eventHandlerThreadStep .waitError = .retryWait ∧
    eventHandlerThreadStep .waitAbort = .exitLoop ∧
    eventHandlerThreadStep .notStarted = .fatalAssertion ∧
    eventHandlerThreadStep .unknownType = .fatalAssertion ∧
    eventHandlerThreadStep .nullEvent = .fatalAssertion ∧
    eventHandlerThreadStep .nonePending = .fatalAssertion := by
  decide

/-- C6: `eventHandlerCreate` fixes the unified slot size to the maximum of
the registered payload sizes and `sizeof(BREventTimeout)` — hence at least
`sizeof(BREventTimeout)` even for an empty type list — and synthesizes the
timeout type with name "Timeout Event" and a NULL dispatcher, which only the
dedicated setter fills in. -/
theorem eventHandlerCreate_eventSize_timeoutType (sz : Nat) (nm : String)
    (types : List BREventType) (ms : Nat) (d : BREventDispatcher)
    (ctx : BREventTimeoutContext) :
    (eventHandlerCreate sz nm types).eventSize
        = max sz ((types.map BREventType.eventSize).foldr max 0) ∧
    sz ≤ (eventHandlerCreate sz nm types).eventSize ∧
    (eventHandlerCreate sz nm types).timeoutEventType.eventName
        = "Timeout Event" ∧
    (eventHandlerCreate sz nm types).timeoutEventType.eventSize = sz ∧
    (eventHandlerCreate sz nm types).timeoutEventType.eventDispatcher = none ∧
    (eventHandlerSetTimeoutDispatcher (eventHandlerCreate sz nm types) ms d
        ctx).timeoutEventType.eventDispatcher = some d := by
  have h0 : (eventHandlerCreate sz nm types).eventSize
      = (types.map BREventType.eventSize).foldl max sz := by
    simp [eventHandlerCreate, List.foldl_map]
  have h1 : (eventHandlerCreate sz nm types).eventSize
      = max sz ((types.map BREventType.eventSize).foldr max 0) := by
    rw [h0, foldl_max_eq]
  refine ⟨h1, ?_, rfl, rfl, rfl, rfl⟩
  rw [h1]
  exact le_max_left _ _

/-- C7: `eventHandlerSetTimeoutDispatcher` stores the millisecond period `m`
as `tv_sec = m / 1000` and `tv_nsec = 1000000 * (m % 1000)`, so that
`tv_sec * 1000 + tv_nsec / 1000000 = m`, and records the supplied context
and dispatcher on the built-in timeout type. -/
theorem eventHandlerSetTimeoutDispatcher_period (h : BREventHandler) (m : Nat)
    (d : BREventDispatcher) (ctx : BREventTimeoutContext) :
    (eventHandlerSetTimeoutDispatcher h m d ctx).timeout.tv_sec = m / 1000 ∧
    (eventHandlerSetTimeoutDispatcher h m d ctx).timeout.tv_nsec
        = 1000000 * (m % 1000) ∧
    (eventHandlerSetTimeoutDispatcher h m d ctx).timeout.tv_sec * 1000
        + (eventHandlerSetTimeoutDispatcher h m d ctx).timeout.tv_nsec / 1000000
        = m ∧
    (eventHandlerSetTimeoutDispatcher h m d ctx).timeoutContext = ctx ∧
    (eventHandlerSetTimeoutDispatcher h m d ctx).timeoutEventType.eventDispatcher
        = some d := by
  refine ⟨rfl, rfl, ?_, rfl, rfl⟩
  show m / 1000 * 1000 + 1000000 * (m % 1000) / 1000000 = m
  rw [Nat.mul_div_cancel_left _ (by norm_num : (0:Nat) < 1000000)]
  omega

/-- C8: on an idle handler, `eventHandlerStart` arms a periodic alarm if and
only if a timeout dispatcher is registered (the armed alarm carries the
handler and its period, with the fresh clock id recorded as the handler's
alarm id); each firing of the alarm callback synthesizes a timeout event of
the handler's built-in timeout type carrying exactly the registered timeout
context, pushed into the handler's own queue via the out-of-band head
path. -/
theorem eventHandlerStart_alarm_iff (h : BREventHandler)
    (clk : BREventAlarmClock) (exp : BRTimespec)
    (hidle : h.thread = none) (hnoalarm : h.timeoutAlarmId = none) :
    ((eventHandlerStart h clk).1.timeoutAlarmId ≠ none
        ↔ h.timeoutEventType.eventDispatcher ≠ none) ∧
    (h.timeoutEventType.eventDispatcher ≠ none →
      (eventHandlerStart h clk).1.timeoutAlarmId = some clk.nextId ∧
      (eventHandlerStart h clk).2.alarms
          = clk.alarms ++ [{ id := clk.nextId, handlerName := h.name,
                             period := h.timeout }]) ∧
    (h.timeoutEventType.eventDispatcher = none →
      (eventHandlerStart h clk).2.alarms = clk.alarms) ∧
    (eventHandlerAlarmCallback h exp).queue.headLane
        = h.queue.headLane ++ [BREvent.timeout h.timeoutContext exp] ∧
    (eventHandlerAlarmCallback h exp).queue.tailLane = h.queue.tailLane := by
  by_cases hd : h.timeoutEventType.eventDispatcher = none <;>
    simp [eventHandlerStart, hidle, hnoalarm, hd, alarmClockCreateIfNecessary,
      alarmClockAddAlarmPeriodic, eventHandlerAlarmCallback,
      eventHandlerSignalEventOOB, eventQueueEnqueueHeadSignal]

/-- Witness for C8 at a concrete idle handler with a registered timeout
dispatcher. -/
theorem eventHandlerStart_alarm_iff_witness :
    sampleArmedHandler.thread = none ∧
    sampleArmedHandler.timeoutAlarmId = none ∧
    ((eventHandlerStart sampleArmedHandler sampleClock).1.timeoutAlarmId ≠ none
        ↔ sampleArmedHandler.timeoutEventType.eventDispatcher ≠ none) :=
  ⟨rfl, rfl,
   (eventHandlerStart_alarm_iff sampleArmedHandler sampleClock
      { tv_sec := 0, tv_nsec := 0 } rfl rfl).1⟩

/-- C9: `rippleAccountSignTransaction` advances the account sequence number
by exactly 1 exactly when serialization-and-signing returns a non-NULL
result; on a NULL result the account is unchanged; the other account fields
are unchanged in every case. -/
theorem rippleAccountSignTransaction_sequence (account : BRRippleAccount)
    (tx : BRRippleTransaction) (pk : String) (getKey : String → BRKey)
    (sas : BRRippleTransaction → BRKey → BRKey → Nat → Nat →
      Option BRRippleSerializedTransaction) :
    ((rippleAccountSignTransaction account tx pk getKey sas).2.sequence
        = account.sequence + 1
      ↔ ((rippleAccountSignTransaction account tx pk getKey sas).1).isSome
        = true) ∧
    ((rippleAccountSignTransaction account tx pk getKey sas).2 = account
      ↔ (rippleAccountSignTransaction account tx pk getKey sas).1 = none) ∧
    (rippleAccountSignTransaction account tx pk getKey sas).2.raw
        = account.raw ∧
    (rippleAccountSignTransaction account tx pk getKey sas).2.publicKey
        = account.publicKey ∧
    (rippleAccountSignTransaction account tx pk getKey sas).2.index
        = account.index ∧
    (rippleAccountSignTransaction account tx pk getKey sas).2.lastLedgerSequence
        = account.lastLedgerSequence := by
  rcases account with ⟨raw, pubk, idx, seq, lls⟩
  cases hres : sas tx (getKey pk) pubk seq lls <;>
    simp [rippleAccountSignTransaction, hres]

/-- C10: the key returned by `rippleAccountGetPublicKey` always has its
secret field equal to `UINT256_ZERO`, whatever secret was previously stored
in the account's key; its other fields are those of the stored public
key. -/
theorem rippleAccountGetPublicKey_zero_secret (account : BRRippleAccount) :
    (rippleAccountGetPublicKey account).1.secret = UINT256_ZERO ∧
    (rippleAccountGetPublicKey account).1
        = { account.publicKey with secret := UINT256_ZERO } :=
  ⟨rfl, rfl⟩
